import Mathlib

/- Shallow embedding of the token-vesting stream program (src/state.rs,
   src/token.rs, src/utils.rs).  u64 values are modelled as Nat; the wrapping
   u64 additions of the handlers are written with an explicit mod 2^64; the
   floating-point intermediate arithmetic of available is modelled by exact
   rational arithmetic with floor, the rounding rule the specification
   prescribes.  Pubkeys are modelled as Nat, with concrete injective
   derivation functions standing in for the program-derived address and the
   associated-token-account derivation.  External calls into the token ledger
   are modelled by their observable success conditions (a transfer out of the
   escrow needs a sufficient escrow balance); a u64 division by zero, which
   aborts the program, is modelled as a dedicated error value. -/

namespace Vesting

/-- Modulus of 64-bit unsigned arithmetic. -/
def U64 : Nat := 2 ^ 64

/-- Wrapping 64-bit addition, as performed by a release-mode u64 add. -/
def wadd (a b : Nat) : Nat := (a + b) % U64

/-- Wrapping 64-bit subtraction of u64-sized operands, as performed by a
release-mode u64 subtraction. -/
def wsub (a b : Nat) : Nat := (a + U64 - b) % U64

/-- The immutable stream terms (struct StreamInstruction in state.rs). -/
structure StreamInstruction where
  start_time : Nat
  end_time : Nat
  deposited_amount : Nat
  total_amount : Nat
  period : Nat
  cliff : Nat
  cliff_amount : Nat
  cancelable_by_sender : Bool
  cancelable_by_recipient : Bool
  withdrawal_public : Bool
  transferable_by_sender : Bool
  transferable_by_recipient : Bool
  release_rate : Nat
  stream_name : String
deriving DecidableEq

/-- The persisted stream record (struct TokenStreamData in state.rs). -/
structure TokenStreamData where
  magic : Nat
  created_at : Nat
  withdrawn_amount : Nat
  canceled_at : Nat
  closable_at : Nat
  last_withdrawn_at : Nat
  sender : Nat
  sender_tokens : Nat
  recipient : Nat
  recipient_tokens : Nat
  mint : Nat
  escrow_tokens : Nat
  ix : StreamInstruction
deriving DecidableEq

/-- PROGRAM_VERSION in state.rs. -/
def PROGRAM_VERSION : Nat := 2

/-- TokenStreamData::new in state.rs. -/
def TokenStreamData.new (created_at sender sender_tokens recipient
    recipient_tokens mint escrow_tokens : Nat) (ix : StreamInstruction) :
    TokenStreamData :=
  { magic := PROGRAM_VERSION
    created_at := created_at
    withdrawn_amount := 0
    canceled_at := 0
    closable_at := ix.end_time
    last_withdrawn_at := 0
    sender := sender
    sender_tokens := sender_tokens
    recipient := recipient
    recipient_tokens := recipient_tokens
    mint := mint
    escrow_tokens := escrow_tokens
    ix := ix }

/-- The effective cliff used by available and closable: the cliff when it is
set, otherwise the start time (the local binding named cliff resp.
cliff_time in state.rs). -/
def TokenStreamData.effCliff (d : TokenStreamData) : Nat :=
  if d.ix.cliff > 0 then d.ix.cliff else d.ix.start_time

/-- The effective cliff amount used by available and closable (the local
binding named cliff_amount in state.rs). -/
def TokenStreamData.cliffAmt (d : TokenStreamData) : Nat :=
  if d.ix.cliff_amount > 0 then d.ix.cliff_amount else 0

/-- The num_periods binding of available, with exact division in place of
the f64 division of the source. -/
def TokenStreamData.numPeriods (d : TokenStreamData) : ℚ :=
  ((d.ix.end_time - d.effCliff : Nat) : ℚ) / (d.ix.period : ℚ)

/-- The period_amount binding of available, with exact division in place of
the f64 division of the source. -/
def TokenStreamData.periodAmount (d : TokenStreamData) : ℚ :=
  if d.ix.release_rate > 0 then (d.ix.release_rate : ℚ)
  else ((d.ix.total_amount - d.cliffAmt : Nat) : ℚ) / d.numPeriods

/-- TokenStreamData::available in state.rs.  The f64 intermediates are
modelled by exact rationals and the cast of the nonnegative product to u64
by the natural floor.  The trailing u64 additions and subtraction are
written here with truncating Nat arithmetic: this is the in-contract
reading of the schedule (the specification's contract forbids a negative
result, declaring a would-be-negative difference an invariant violation).
availableW below is the release-mode wrapping u64 semantics of the same
return expression, and availableW_eq_available proves the two agree
exactly when the value stays inside u64 and the subtraction does not
underflow. -/
def TokenStreamData.available (d : TokenStreamData) (now : Nat) : Nat :=
  if now < d.ix.start_time ∨ now < d.ix.cliff then 0
  else if d.ix.end_time ≤ now ∧ d.ix.release_rate = 0 then
    d.ix.deposited_amount - d.withdrawn_amount
  else
    ⌊(((now - d.effCliff) / d.ix.period : Nat) : ℚ) * d.periodAmount⌋₊
      + d.cliffAmt - d.withdrawn_amount

/-- The schedule term of available: the f64 product periods_passed times
period_amount, cast to u64 (state.rs:151); named so the wrapping-semantics
variant below can reuse it. -/
def TokenStreamData.schedTerm (d : TokenStreamData) (now : Nat) : Nat :=
  ⌊(((now - d.effCliff) / d.ix.period : Nat) : ℚ) * d.periodAmount⌋₊

/-- The release-mode u64 semantics of the return expression of available:
the f64-to-u64 cast saturates at u64::MAX, and the following u64 addition
of the cliff amount and subtraction of the withdrawn amount wrap on
overflow and underflow. -/
def TokenStreamData.availableW (d : TokenStreamData) (now : Nat) : Nat :=
  if now < d.ix.start_time ∨ now < d.ix.cliff then 0
  else if d.ix.end_time ≤ now ∧ d.ix.release_rate = 0 then
    wsub d.ix.deposited_amount d.withdrawn_amount
  else
    wsub (wadd (min (d.schedTerm now) (U64 - 1)) d.cliffAmt) d.withdrawn_amount

/-- TokenStreamData::closable in state.rs.  The u64 divisions of the source
abort the program when the divisor is zero; those aborts are modelled as
none. -/
def TokenStreamData.closable? (d : TokenStreamData) : Option Nat :=
  if d.ix.deposited_amount < d.cliffAmt then some d.effCliff
  else if d.ix.release_rate > 0 ∧ d.ix.period = 0 then none
  else if d.ix.release_rate = 0 ∧ d.ix.end_time - d.effCliff = 0 then none
  else
    let amount_per_second :=
      if d.ix.release_rate > 0 then d.ix.release_rate / d.ix.period
      else (d.ix.total_amount - d.cliffAmt) / (d.ix.end_time - d.effCliff)
    if amount_per_second = 0 then none
    else
      let seconds_left :=
        (d.ix.deposited_amount - d.cliffAmt) / amount_per_second + 1
      if d.effCliff + seconds_left > d.ix.end_time ∧ d.ix.release_rate = 0 then
        some d.ix.end_time
      else some (d.effCliff + seconds_left)

/-- Written from the words of the claim about closable, for comparison with
the function above: the amount per second and the seconds left are computed
with real-valued division.  Returns the claimed timestamp as a rational. -/
def TokenStreamData.closableClaimReal (d : TokenStreamData) : ℚ :=
  if d.ix.deposited_amount < d.cliffAmt then (d.effCliff : ℚ)
  else
    let amount_per_second : ℚ :=
      if d.ix.release_rate > 0 then (d.ix.release_rate : ℚ) / (d.ix.period : ℚ)
      else ((d.ix.total_amount - d.cliffAmt : Nat) : ℚ) /
        ((d.ix.end_time - d.effCliff : Nat) : ℚ)
    let value : ℚ :=
      (d.effCliff : ℚ) +
        (((d.ix.deposited_amount - d.cliffAmt : Nat) : ℚ) / amount_per_second + 1)
    if (d.ix.end_time : ℚ) < value ∧ d.ix.release_rate = 0 then (d.ix.end_time : ℚ)
    else value

/-- The data-model invariants of the specification for a stream record:
bounded withdrawal, ordered times, a period of at least one second, and a
cliff lying between start and end when present. -/
def ValidRecord (d : TokenStreamData) : Prop :=
  d.withdrawn_amount ≤ d.ix.deposited_amount ∧
  d.ix.start_time < d.ix.end_time ∧
  1 ≤ d.ix.period ∧
  (d.ix.cliff ≠ 0 → d.ix.start_time ≤ d.ix.cliff ∧ d.ix.cliff ≤ d.ix.end_time)

instance (d : TokenStreamData) : Decidable (ValidRecord d) := by
  unfold ValidRecord
  infer_instance

/-- duration_sanity in utils.rs. -/
def duration_sanity (now start «end» cliff : Nat) : Bool :=
  let cliff_cond := if cliff = 0 then true else decide (start ≤ cliff ∧ cliff ≤ «end»)
  decide (now < start) && decide (start < «end») && cliff_cond

/-- MAX_STRING_SIZE in token.rs. -/
def MAX_STRING_SIZE : Nat := 200

/-- The slice of an AccountInfo the handlers read: address, signer and
writability flags, data emptiness, owning program and lamport balance. -/
structure AccountInfo where
  key : Nat
  is_signer : Bool
  is_writable : Bool
  dataEmpty : Bool
  owner : Nat
  lamports : Nat
deriving DecidableEq

/-- Address of the external token-ledger program (spl_token::id()). -/
def splTokenId : Nat := 1

/-- Address of the storage substrate program (system_program::id()). -/
def systemProgramId : Nat := 2

/-- Address of the rent oracle (sysvar::rent::id()). -/
def rentSysvarId : Nat := 3

/-- Injective pairing used by the concrete address-derivation models. -/
def pairN (a b : Nat) : Nat := (a + b) * (a + b + 1) / 2 + b

/-- Model of Pubkey::find_program_address over the metadata key seed. -/
def findProgramAddress (seed pid : Nat) : Nat := 10 + 2 * pairN seed pid

/-- Model of get_associated_token_address. -/
def associatedTokenAddress (wallet mint : Nat) : Nat := 11 + 2 * pairN wallet mint

/-- The caller-visible error taxonomy of the program, plus a value standing
for an aborting u64 division by zero. -/
inductive Err where
  | accountAlreadyInitialized
  | accountsNotWritable
  | invalidAccountData
  | missingRequiredSignature
  | uninitializedAccount
  | invalidMetadata
  | mintMismatch
  | insufficientFunds
  | invalidArgument
  | streamClosed
  | transferNotAllowed
  | divByZeroAbort
deriving DecidableEq

instance {ε α : Type} [DecidableEq ε] [DecidableEq α] :
    DecidableEq (Except ε α) := fun x y =>
  match x, y with
  | .ok a, .ok b =>
    if h : a = b then .isTrue (congrArg Except.ok h)
    else .isFalse (fun he => h (Except.ok.inj he))
  | .error a, .error b =>
    if h : a = b then .isTrue (congrArg Except.error h)
    else .isFalse (fun he => h (Except.error.inj he))
  | .ok _, .error _ => .isFalse (fun he => Except.noConfusion he)
  | .error _, .ok _ => .isFalse (fun he => Except.noConfusion he)

/-- Observable state of the external collaborators during one invocation:
whether the byte payloads of the supplied accounts decode, the mint and
balance of the supplied sender token account, and the rent amounts quoted by
the rent oracle. -/
structure TokenEnv where
  senderTokenMint : Nat
  senderTokenAmount : Nat
  senderTokenDecodes : Bool
  mintDecodes : Bool
  escrowDecodes : Bool
  metaDecodes : Bool
  metadataRent : Nat
  tokensRent : Nat
  ataCreateOk : Bool
deriving DecidableEq

/-- The program-relevant persisted state: the stream record stored in the
metadata account, the token balance of the escrow account, and whether the
escrow account is still open. -/
structure SysState where
  meta : TokenStreamData
  escrowBalance : Nat
  escrowOpen : Bool
deriving DecidableEq

/-- Continue a handler with the result of a partial computation, aborting
the invocation when the computation divided by zero. -/
def orAbort {α : Type} (o : Option α) (k : α → Except Err SysState) :
    Except Err SysState :=
  match o with
  | none => .error .divByZeroAbort
  | some x => k x

lemma orAbort_some {α : Type} (x : α) (k : α → Except Err SysState) :
    orAbort (some x) k = k x := rfl

lemma orAbort_none {α : Type} (k : α → Except Err SysState) :
    orAbort none k = .error .divByZeroAbort := rfl

lemma orAbort_ok {α : Type} {o : Option α} {k : α → Except Err SysState}
    {st2 : SysState} (h : orAbort o k = .ok st2) :
    ∃ x, o = some x ∧ k x = .ok st2 := by
  cases o with
  | none => exact absurd h (by rw [orAbort_none]; exact fun he => Except.noConfusion he)
  | some x => exact ⟨x, rfl, h⟩

/-- Account arguments of create (struct InitializeAccounts). -/
structure InitializeAccounts where
  sender : AccountInfo
  sender_tokens : AccountInfo
  recipient : AccountInfo
  recipient_tokens : AccountInfo
  metadata : AccountInfo
  escrow_tokens : AccountInfo
  mint : AccountInfo
  rent : AccountInfo
  token_program : AccountInfo
  associated_token_program : AccountInfo
  system_program : AccountInfo
deriving DecidableEq

/-- Account arguments of withdraw (struct WithdrawAccounts). -/
structure WithdrawAccounts where
  withdraw_authority : AccountInfo
  sender : AccountInfo
  recipient : AccountInfo
  recipient_tokens : AccountInfo
  metadata : AccountInfo
  escrow_tokens : AccountInfo
  mint : AccountInfo
  token_program : AccountInfo
deriving DecidableEq

/-- Account arguments of cancel (struct CancelAccounts). -/
structure CancelAccounts where
  cancel_authority : AccountInfo
  sender : AccountInfo
  sender_tokens : AccountInfo
  recipient : AccountInfo
  recipient_tokens : AccountInfo
  metadata : AccountInfo
  escrow_tokens : AccountInfo
  mint : AccountInfo
  token_program : AccountInfo
deriving DecidableEq

/-- Account arguments of transfer_recipient (struct TransferAccounts). -/
structure TransferAccounts where
  authorized_wallet : AccountInfo
  new_recipient : AccountInfo
  new_recipient_tokens : AccountInfo
  metadata : AccountInfo
  escrow_tokens : AccountInfo
  mint : AccountInfo
  rent : AccountInfo
  token_program : AccountInfo
  associated_token_program : AccountInfo
  system_program : AccountInfo
deriving DecidableEq

/-- Account arguments of topup_stream (struct TopUpAccounts). -/
structure TopUpAccounts where
  sender : AccountInfo
  sender_tokens : AccountInfo
  metadata : AccountInfo
  escrow_tokens : AccountInfo
  mint : AccountInfo
  token_program : AccountInfo
deriving DecidableEq

/-- create in token.rs: validates the fresh accounts, builds the record,
recomputes closable_at for partially funded or rate-based streams, funds the
escrow and returns the resulting persisted state.  External account
creations are modelled as succeeding once the explicit lamport and token
balance checks of the source have passed. -/
def create (pid : Nat) (acc : InitializeAccounts) (env : TokenEnv) (now : Nat)
    (ix : StreamInstruction) : Except Err SysState :=
  if ¬ acc.escrow_tokens.dataEmpty ∨ ¬ acc.metadata.dataEmpty then
    .error .accountAlreadyInitialized
  else if ¬ (acc.sender.is_writable ∧ acc.sender_tokens.is_writable ∧
      acc.recipient.is_writable ∧ acc.recipient_tokens.is_writable ∧
      acc.metadata.is_writable ∧ acc.escrow_tokens.is_writable) then
    .error .accountsNotWritable
  else if acc.system_program.key ≠ systemProgramId ∨
      acc.token_program.key ≠ splTokenId ∨
      acc.rent.key ≠ rentSysvarId ∨
      acc.escrow_tokens.key ≠ findProgramAddress acc.metadata.key pid ∨
      acc.recipient_tokens.key ≠ associatedTokenAddress acc.recipient.key acc.mint.key then
    .error .invalidAccountData
  else if ¬ (acc.sender.is_signer ∧ acc.metadata.is_signer) then
    .error .missingRequiredSignature
  else if acc.sender_tokens.owner ≠ splTokenId ∨ ¬ env.senderTokenDecodes then
    .error .invalidAccountData
  else if ¬ env.mintDecodes then .error .invalidAccountData
  else if env.senderTokenMint ≠ acc.mint.key then .error .mintMismatch
  else if ¬ duration_sanity now ix.start_time ix.end_time ix.cliff then
    .error .invalidArgument
  else if ix.stream_name.utf8ByteSize > MAX_STRING_SIZE then .error .invalidArgument
  else
    let metadata := TokenStreamData.new now acc.sender.key acc.sender_tokens.key
      acc.recipient.key acc.recipient_tokens.key acc.mint.key
      acc.escrow_tokens.key ix
    let upd : Option TokenStreamData :=
      if ix.deposited_amount < ix.total_amount ∨ ix.release_rate > 0 then
        (metadata.closable?).map (fun c => { metadata with closable_at := c })
      else some metadata
    orAbort upd fun metadata =>
      let tokens_rent :=
        env.tokensRent + (if acc.recipient_tokens.dataEmpty then env.tokensRent else 0)
      if acc.sender.lamports < env.metadataRent + tokens_rent then
        .error .insufficientFunds
      else if env.senderTokenAmount < ix.deposited_amount then
        .error .insufficientFunds
      else
        .ok { meta := metadata
              escrowBalance := ix.deposited_amount
              escrowOpen := true }

/-- withdraw in token.rs: validates accounts and signer, computes the
available amount, moves the requested amount out of the escrow, updates the
record, and closes the escrow when the stream is fully withdrawn. -/
def withdraw (pid : Nat) (acc : WithdrawAccounts) (env : TokenEnv) (now amount : Nat)
    (st : SysState) : Except Err SysState :=
  if acc.escrow_tokens.dataEmpty ∨ acc.escrow_tokens.owner ≠ splTokenId ∨
      acc.metadata.dataEmpty ∨ acc.metadata.owner ≠ pid then
    .error .uninitializedAccount
  else if ¬ (acc.recipient.is_writable ∧ acc.recipient_tokens.is_writable ∧
      acc.metadata.is_writable ∧ acc.escrow_tokens.is_writable) then
    .error .invalidAccountData
  else if acc.token_program.key ≠ splTokenId ∨
      acc.escrow_tokens.key ≠ findProgramAddress acc.metadata.key pid ∨
      acc.recipient_tokens.key ≠ associatedTokenAddress acc.recipient.key acc.mint.key ∨
      acc.withdraw_authority.key ≠ acc.recipient.key then
    .error .invalidAccountData
  else if ¬ acc.withdraw_authority.is_signer then .error .missingRequiredSignature
  else if ¬ env.metaDecodes then .error .invalidMetadata
  else if ¬ env.mintDecodes then .error .invalidAccountData
  else
    let m := st.meta
    if acc.recipient.key ≠ m.recipient ∨
        acc.recipient_tokens.key ≠ m.recipient_tokens ∨
        acc.mint.key ≠ m.mint ∨
        acc.escrow_tokens.key ≠ m.escrow_tokens then
      .error .invalidAccountData
    else
      let avail := m.available now
      if amount > avail then .error .invalidArgument
      else
        let requested := if amount = 0 then avail else amount
        if st.escrowBalance < requested then .error .insufficientFunds
        else
          let m2 := { m with withdrawn_amount := wadd m.withdrawn_amount requested,
                             last_withdrawn_at := now }
          if m2.withdrawn_amount = m2.ix.deposited_amount then
            if ¬ acc.sender.is_writable ∨ acc.sender.key ≠ m.sender then
              .error .invalidAccountData
            else
              .ok { meta := m2, escrowBalance := 0, escrowOpen := false }
          else
            .ok { meta := m2, escrowBalance := st.escrowBalance - requested,
                  escrowOpen := true }

/-- cancel in token.rs: validates accounts, applies the early-cancel
authorization rule against the stored closable_at, pays the available amount
to the recipient and the remainder back to the sender, closes the escrow and
stamps the cancellation time when cancelling early. -/
def cancel (pid : Nat) (acc : CancelAccounts) (env : TokenEnv) (now : Nat)
    (st : SysState) : Except Err SysState :=
  if acc.escrow_tokens.dataEmpty ∨ acc.escrow_tokens.owner ≠ splTokenId ∨
      acc.metadata.dataEmpty ∨ acc.metadata.owner ≠ pid then
    .error .uninitializedAccount
  else if ¬ (acc.sender.is_writable ∧ acc.sender_tokens.is_writable ∧
      acc.recipient.is_writable ∧ acc.recipient_tokens.is_writable ∧
      acc.metadata.is_writable ∧ acc.escrow_tokens.is_writable) then
    .error .invalidAccountData
  else if acc.token_program.key ≠ splTokenId ∨
      acc.escrow_tokens.key ≠ findProgramAddress acc.metadata.key pid ∨
      acc.recipient_tokens.key ≠ associatedTokenAddress acc.recipient.key acc.mint.key then
    .error .invalidAccountData
  else if ¬ env.metaDecodes then .error .invalidMetadata
  else if ¬ env.mintDecodes then .error .invalidAccountData
  else
    let m := st.meta
    if now < m.closable_at ∧ acc.cancel_authority.key ≠ acc.sender.key then
      .error .invalidAccountData
    else if now < m.closable_at ∧ ¬ acc.cancel_authority.is_signer then
      .error .missingRequiredSignature
    else if acc.sender.key ≠ m.sender ∨
        acc.sender_tokens.key ≠ m.sender_tokens ∨
        acc.recipient.key ≠ m.recipient ∨
        acc.recipient_tokens.key ≠ m.recipient_tokens ∨
        acc.mint.key ≠ m.mint ∨
        acc.escrow_tokens.key ≠ m.escrow_tokens then
      .error .invalidAccountData
    else
      let avail := m.available now
      if ¬ env.escrowDecodes then .error .invalidAccountData
      else if st.escrowBalance < avail then .error .insufficientFunds
      else
        let w2 := wadd m.withdrawn_amount avail
        let remains := wsub m.ix.deposited_amount w2
        if remains > 0 ∧ st.escrowBalance - avail < remains then
          .error .insufficientFunds
        else
          let m2 := { m with
            withdrawn_amount := w2,
            last_withdrawn_at := if now < m.closable_at then now else m.last_withdrawn_at,
            canceled_at := if now < m.closable_at then now else m.canceled_at }
          .ok { meta := m2, escrowBalance := 0, escrowOpen := false }

/-- transfer_recipient in token.rs: validates the caller against the
transferability flags, checks the supplied accounts against the record and
the derived addresses, and rewrites the recipient identities. -/
def transfer_recipient (pid : Nat) (acc : TransferAccounts) (env : TokenEnv)
    (st : SysState) : Except Err SysState :=
  if acc.metadata.dataEmpty ∨ acc.metadata.owner ≠ pid ∨
      acc.escrow_tokens.dataEmpty ∨ acc.escrow_tokens.owner ≠ splTokenId then
    .error .uninitializedAccount
  else if ¬ acc.authorized_wallet.is_signer then .error .missingRequiredSignature
  else if ¬ (acc.metadata.is_writable ∧ acc.authorized_wallet.is_writable ∧
      acc.new_recipient_tokens.is_writable) then
    .error .invalidAccountData
  else if ¬ env.metaDecodes then .error .invalidMetadata
  else
    let m := st.meta
    if ¬ m.ix.transferable_by_recipient ∧ ¬ m.ix.transferable_by_sender then
      .error .transferNotAllowed
    else
      let authorized :=
        (m.ix.transferable_by_recipient ∧ m.recipient = acc.authorized_wallet.key) ∨
        (m.ix.transferable_by_sender ∧ m.sender = acc.authorized_wallet.key)
      if ¬ authorized then .error .transferNotAllowed
      else if acc.new_recipient_tokens.key ≠
            associatedTokenAddress acc.new_recipient.key acc.mint.key ∨
          acc.mint.key ≠ m.mint ∨
          acc.authorized_wallet.key ≠ m.recipient ∨
          acc.escrow_tokens.key ≠ m.escrow_tokens ∨
          acc.escrow_tokens.key ≠ findProgramAddress acc.metadata.key pid ∨
          acc.token_program.key ≠ splTokenId ∨
          acc.system_program.key ≠ systemProgramId ∨
          acc.rent.key ≠ rentSysvarId then
        .error .invalidAccountData
      else
        let ataStep : Except Err Unit :=
          if ¬ acc.new_recipient_tokens.dataEmpty then
            if acc.authorized_wallet.lamports < env.tokensRent then
              .error .insufficientFunds
            else if ¬ env.ataCreateOk then .error .invalidAccountData
            else .ok ()
          else .ok ()
        match ataStep with
        | .error e => .error e
        | .ok _ =>
          .ok { st with meta := { m with
                  recipient := acc.new_recipient.key,
                  recipient_tokens := acc.new_recipient_tokens.key } }

/-- topup_stream in token.rs: validates the supplied accounts, rejects a
zero amount and a stream whose freshly recomputed closable time lies before
now, moves the amount into the escrow, and bumps the deposit (a wrapping u64
add) before recomputing and persisting closable_at. -/
def topup_stream (pid : Nat) (acc : TopUpAccounts) (env : TokenEnv) (now amount : Nat)
    (st : SysState) : Except Err SysState :=
  if acc.metadata.dataEmpty ∨ acc.escrow_tokens.owner ≠ splTokenId then
    .error .uninitializedAccount
  else if ¬ (acc.sender.is_writable ∧ acc.sender_tokens.is_writable ∧
      acc.metadata.is_writable ∧ acc.escrow_tokens.is_writable) then
    .error .accountsNotWritable
  else if acc.token_program.key ≠ splTokenId ∨
      acc.escrow_tokens.key ≠ findProgramAddress acc.metadata.key pid then
    .error .invalidAccountData
  else if ¬ acc.sender.is_signer then .error .missingRequiredSignature
  else if acc.sender_tokens.owner ≠ splTokenId ∨ ¬ env.senderTokenDecodes then
    .error .invalidAccountData
  else if env.senderTokenMint ≠ acc.mint.key then .error .mintMismatch
  else if amount = 0 then .error .invalidArgument
  else if ¬ env.metaDecodes then .error .invalidMetadata
  else
    let m := st.meta
    if acc.mint.key ≠ m.mint ∨ acc.escrow_tokens.key ≠ m.escrow_tokens then
      .error .invalidAccountData
    else
      orAbort m.closable? fun c =>
        if c < now then .error .streamClosed
        else if env.senderTokenAmount < amount then .error .insufficientFunds
        else if U64 ≤ st.escrowBalance + amount then .error .insufficientFunds
        else
          let m2 := { m with ix :=
            { m.ix with deposited_amount := wadd m.ix.deposited_amount amount } }
          orAbort m2.closable? fun c2 =>
            if ¬ env.mintDecodes then .error .invalidAccountData
            else
              .ok { meta := { m2 with closable_at := c2 },
                    escrowBalance := st.escrowBalance + amount,
                    escrowOpen := true }

/-- The nonnegative floor of the rational expression computed by available
collapses to a single natural division. -/
lemma floor_mul_div_cast (pp T p E : ℕ) :
    ⌊(pp : ℚ) * ((T : ℚ) / ((E : ℚ) / (p : ℚ)))⌋₊ = pp * T * p / E := by
  rcases Nat.eq_zero_or_pos E with hE | hE
  · subst hE; simp
  rcases Nat.eq_zero_or_pos p with hp | hp
  · subst hp; simp
  have hEq : (E : ℚ) ≠ 0 := Nat.cast_ne_zero.mpr (Nat.pos_iff_ne_zero.mp hE)
  have hpq : (p : ℚ) ≠ 0 := Nat.cast_ne_zero.mpr (Nat.pos_iff_ne_zero.mp hp)
  rw [div_div_eq_mul_div, mul_div_assoc']
  have hc : (pp : ℚ) * ((T : ℚ) * (p : ℚ)) = ((pp * T * p : ℕ) : ℚ) := by
    push_cast; ring
  rw [hc, Nat.floor_div_eq_div]

/-- available, rewritten with the rational arithmetic collapsed to natural
divisions; every value of available is computed by this closed natural
formula. -/
theorem available_eq_div (d : TokenStreamData) (now : Nat) :
    d.available now =
      if now < d.ix.start_time ∨ now < d.ix.cliff then 0
      else if d.ix.end_time ≤ now ∧ d.ix.release_rate = 0 then
        d.ix.deposited_amount - d.withdrawn_amount
      else
        (if 0 < d.ix.release_rate then
           (now - d.effCliff) / d.ix.period * d.ix.release_rate
         else
           (now - d.effCliff) / d.ix.period * (d.ix.total_amount - d.cliffAmt)
             * d.ix.period / (d.ix.end_time - d.effCliff))
          + d.cliffAmt - d.withdrawn_amount := by
  rw [TokenStreamData.available]
  by_cases h1 : now < d.ix.start_time ∨ now < d.ix.cliff
  · rw [if_pos h1, if_pos h1]
  rw [if_neg h1, if_neg h1]
  by_cases h2 : d.ix.end_time ≤ now ∧ d.ix.release_rate = 0
  · rw [if_pos h2, if_pos h2]
  rw [if_neg h2, if_neg h2]
  by_cases hrr : 0 < d.ix.release_rate
  · rw [if_pos hrr, TokenStreamData.periodAmount, if_pos hrr, ← Nat.cast_mul,
      Nat.floor_natCast]
  · rw [if_neg hrr, TokenStreamData.periodAmount, if_neg hrr,
      TokenStreamData.numPeriods, floor_mul_div_cast]

lemma wadd_eq_of_lt {a b : Nat} (h : a + b < U64) : wadd a b = a + b :=
  Nat.mod_eq_of_lt h

lemma wsub_eq_of_le {a b : Nat} (hba : b ≤ a) (ha : a < U64) :
    wsub a b = a - b := by
  show (a + U64 - b) % U64 = a - b
  have hsw : a + U64 - b = a - b + U64 := by omega
  rw [hsw, Nat.add_mod_right]
  exact Nat.mod_eq_of_lt (by omega)

/-- The schedule term, rewritten with the rational arithmetic collapsed to
a natural division. -/
theorem schedTerm_eq_div (d : TokenStreamData) (now : Nat) :
    d.schedTerm now =
      if 0 < d.ix.release_rate then
        (now - d.effCliff) / d.ix.period * d.ix.release_rate
      else
        (now - d.effCliff) / d.ix.period * (d.ix.total_amount - d.cliffAmt)
          * d.ix.period / (d.ix.end_time - d.effCliff) := by
  rw [TokenStreamData.schedTerm]
  by_cases hrr : 0 < d.ix.release_rate
  · rw [if_pos hrr, TokenStreamData.periodAmount, if_pos hrr, ← Nat.cast_mul,
      Nat.floor_natCast]
  · rw [if_neg hrr, TokenStreamData.periodAmount, if_neg hrr,
      TokenStreamData.numPeriods, floor_mul_div_cast]

/-- The schedule term is non-decreasing in time. -/
lemma schedTerm_mono (d : TokenStreamData) {n1 n2 : Nat} (h : n1 ≤ n2) :
    d.schedTerm n1 ≤ d.schedTerm n2 := by
  rw [schedTerm_eq_div, schedTerm_eq_div]
  have hpp : (n1 - d.effCliff) / d.ix.period ≤ (n2 - d.effCliff) / d.ix.period :=
    Nat.div_le_div_right (by omega)
  by_cases hrr : 0 < d.ix.release_rate
  · rw [if_pos hrr, if_pos hrr]
    exact Nat.mul_le_mul_right _ hpp
  · rw [if_neg hrr, if_neg hrr]
    exact Nat.div_le_div_right
      (Nat.mul_le_mul_right _ (Nat.mul_le_mul_right _ hpp))

/-- Before end_time, the rate-free schedule division never exceeds the
total beyond the cliff amount. -/
lemma schedDiv_le (d : TokenStreamData) (n : Nat) (heff : d.effCliff ≤ n)
    (hne : n < d.ix.end_time) :
    (n - d.effCliff) / d.ix.period * (d.ix.total_amount - d.cliffAmt) *
      d.ix.period / (d.ix.end_time - d.effCliff) ≤
      d.ix.total_amount - d.cliffAmt := by
  have hEpos : 0 < d.ix.end_time - d.effCliff := by omega
  have h1 : (n - d.effCliff) / d.ix.period * d.ix.period ≤ n - d.effCliff :=
    Nat.div_mul_le_self _ _
  have h2 : (n - d.effCliff) / d.ix.period *
      (d.ix.total_amount - d.cliffAmt) * d.ix.period ≤
      (d.ix.end_time - d.effCliff) * (d.ix.total_amount - d.cliffAmt) := by
    have hsw : (n - d.effCliff) / d.ix.period *
        (d.ix.total_amount - d.cliffAmt) * d.ix.period =
        (n - d.effCliff) / d.ix.period * d.ix.period *
        (d.ix.total_amount - d.cliffAmt) := by ring
    rw [hsw]
    have hle : (n - d.effCliff) / d.ix.period * d.ix.period ≤
        d.ix.end_time - d.effCliff := by omega
    exact Nat.mul_le_mul_right _ hle
  calc (n - d.effCliff) / d.ix.period *
      (d.ix.total_amount - d.cliffAmt) * d.ix.period /
      (d.ix.end_time - d.effCliff)
      ≤ (d.ix.end_time - d.effCliff) * (d.ix.total_amount - d.cliffAmt) /
        (d.ix.end_time - d.effCliff) := Nat.div_le_div_right h2
    _ = d.ix.total_amount - d.cliffAmt := Nat.mul_div_cancel_left _ hEpos

/-- The wrapping and the truncating reading of available agree whenever the
record is inside u64 bounds and the trailing subtraction does not
underflow at the queried time. -/
theorem availableW_eq_available (d : TokenStreamData) (now : Nat)
    (hwd : d.withdrawn_amount ≤ d.ix.deposited_amount)
    (hdep : d.ix.deposited_amount < U64)
    (hno : d.withdrawn_amount ≤ d.cliffAmt + d.schedTerm now)
    (hov : d.cliffAmt + d.schedTerm now < U64) :
    d.availableW now = d.available now := by
  rw [TokenStreamData.availableW, TokenStreamData.available]
  by_cases hz : now < d.ix.start_time ∨ now < d.ix.cliff
  · rw [if_pos hz, if_pos hz]
  rw [if_neg hz, if_neg hz]
  by_cases hb : d.ix.end_time ≤ now ∧ d.ix.release_rate = 0
  · rw [if_pos hb, if_pos hb, wsub_eq_of_le hwd hdep]
  · rw [if_neg hb, if_neg hb, min_eq_left (by omega),
      wadd_eq_of_lt (by omega), wsub_eq_of_le (by omega) (by omega)]
    rw [TokenStreamData.schedTerm]

/- Concrete fixtures used by the scenario theorems, counterexamples and
   witnesses. -/

/-- Program id used by the concrete fixtures. -/
def pidX : Nat := 7

/-- Escrow address derived from the metadata key 100 under pidX. -/
def escrowKey : Nat := findProgramAddress 100 pidX

/-- Canonical token account of recipient 20 for mint 30. -/
def recipTokKey : Nat := associatedTokenAddress 20 30

/-- A writable, non-signing, populated account at a given address. -/
def aInfo (k : Nat) : AccountInfo :=
  { key := k, is_signer := false, is_writable := true, dataEmpty := false,
    owner := 0, lamports := 0 }

/-- Scenario A terms: start 100, end 200, period 10, no cliff, total and
deposit 1000, no release rate. -/
def ixA : StreamInstruction :=
  { start_time := 100, end_time := 200, deposited_amount := 1000,
    total_amount := 1000, period := 10, cliff := 0, cliff_amount := 0,
    cancelable_by_sender := true, cancelable_by_recipient := false,
    withdrawal_public := false, transferable_by_sender := false,
    transferable_by_recipient := true, release_rate := 0, stream_name := "s" }

/-- Scenario A record: sender 40, sender tokens 41, recipient 20, mint 30. -/
def recA : TokenStreamData :=
  TokenStreamData.new 0 40 41 20 recipTokKey 30 escrowKey ixA

/-- Scenario A persisted state with its full deposit still in escrow. -/
def stA : SysState := { meta := recA, escrowBalance := 1000, escrowOpen := true }

/-- An environment in which every external decode succeeds and the sender
token account holds 1000 tokens of mint 30. -/
def envStd : TokenEnv :=
  { senderTokenMint := 30, senderTokenAmount := 1000, senderTokenDecodes := true,
    mintDecodes := true, escrowDecodes := true, metaDecodes := true,
    metadataRent := 0, tokensRent := 0, ataCreateOk := true }

/-- Withdraw accounts matching recA, with the recipient signing. -/
def waA : WithdrawAccounts :=
  { withdraw_authority := { aInfo 20 with is_signer := true },
    sender := aInfo 40,
    recipient := aInfo 20,
    recipient_tokens := aInfo recipTokKey,
    metadata := { aInfo 100 with owner := pidX },
    escrow_tokens := { aInfo escrowKey with owner := splTokenId },
    mint := aInfo 30,
    token_program := aInfo splTokenId }

/-- Cancel accounts matching recA, with the sender as signing authority. -/
def caA : CancelAccounts :=
  { cancel_authority := { aInfo 40 with is_signer := true },
    sender := aInfo 40,
    sender_tokens := aInfo 41,
    recipient := aInfo 20,
    recipient_tokens := aInfo recipTokKey,
    metadata := { aInfo 100 with owner := pidX },
    escrow_tokens := { aInfo escrowKey with owner := splTokenId },
    mint := aInfo 30,
    token_program := aInfo splTokenId }

/-- Top-up accounts matching recA, with the sender signing. -/
def taA : TopUpAccounts :=
  { sender := { aInfo 40 with is_signer := true },
    sender_tokens := { aInfo 41 with owner := splTokenId },
    metadata := aInfo 100,
    escrow_tokens := { aInfo escrowKey with owner := splTokenId },
    mint := aInfo 30,
    token_program := aInfo splTokenId }

/-- Create accounts for a fresh stream: record and escrow slots empty,
sender and metadata signing. -/
def iaA : InitializeAccounts :=
  { sender := { aInfo 40 with is_signer := true },
    sender_tokens := { aInfo 41 with owner := splTokenId },
    recipient := aInfo 20,
    recipient_tokens := { aInfo recipTokKey with dataEmpty := true },
    metadata := { aInfo 100 with is_signer := true, dataEmpty := true },
    escrow_tokens := { aInfo escrowKey with dataEmpty := true },
    mint := aInfo 30,
    rent := aInfo rentSysvarId,
    token_program := aInfo splTokenId,
    associated_token_program := aInfo 4,
    system_program := aInfo systemProgramId }

/-- Record with Scenario A terms except end 400 and deposit 600: integer and
real-valued division disagree on its closable time. -/
def recC6 : TokenStreamData :=
  TokenStreamData.new 0 40 41 20 recipTokKey 30 escrowKey
    { ixA with end_time := 400, deposited_amount := 600 }

/-- Scenario A terms with a release rate of 5, smaller than the period 10:
the integer rate-per-second underflows to zero. -/
def ixC10 : StreamInstruction := { ixA with release_rate := 5 }

/-- Record with sender-transferability only, otherwise Scenario A. -/
def recT : TokenStreamData :=
  TokenStreamData.new 0 40 41 20 recipTokKey 30 escrowKey
    { ixA with transferable_by_sender := true, transferable_by_recipient := false }

/-- Persisted state of recT. -/
def stT : SysState := { meta := recT, escrowBalance := 1000, escrowOpen := true }

/-- Transfer accounts for stT: the sender is the signing authorized wallet
and every derived-address check passes. -/
def trT : TransferAccounts :=
  { authorized_wallet := { aInfo 40 with is_signer := true },
    new_recipient := aInfo 50,
    new_recipient_tokens := { aInfo (associatedTokenAddress 50 30) with dataEmpty := true },
    metadata := { aInfo 100 with owner := pidX },
    escrow_tokens := { aInfo escrowKey with owner := splTokenId },
    mint := aInfo 30,
    rent := aInfo rentSysvarId,
    token_program := aInfo splTokenId,
    associated_token_program := aInfo 4,
    system_program := aInfo systemProgramId }

/-- Partially funded Scenario A record: deposit 500 of an intended 1000. -/
def recE : TokenStreamData :=
  TokenStreamData.new 0 40 41 20 recipTokKey 30 escrowKey
    { ixA with deposited_amount := 500 }

/-- Persisted state of recE with its deposit in escrow. -/
def stE : SysState := { meta := recE, escrowBalance := 500, escrowOpen := true }

/-- Top-up accounts whose sender 99 differs from the record sender 40. -/
def taC7 : TopUpAccounts := { taA with sender := { aInfo 99 with is_signer := true } }

/-- C1: for start_time ≤ now, cliff ≤ now, and not (now ≥ end_time with
release_rate = 0), available equals the floor of periods_passed times
period_amount, plus the effective cliff amount, minus withdrawn_amount,
with the effective cliff, period amount and real-valued division as the
specification defines them; and on Scenario A available is 500 at now 150
and 1000 at now 200. -/
theorem c1_available_formula (d : TokenStreamData) (now : Nat)
    (h1 : d.ix.start_time ≤ now) (h2 : d.ix.cliff ≤ now)
    (h3 : ¬ (d.ix.end_time ≤ now ∧ d.ix.release_rate = 0)) :
    d.available now =
      ⌊(((now - (if 0 < d.ix.cliff then d.ix.cliff else d.ix.start_time)) /
            d.ix.period : Nat) : ℚ) *
        (if 0 < d.ix.release_rate then (d.ix.release_rate : ℚ)
         else
           ((d.ix.total_amount -
               (if 0 < d.ix.cliff_amount then d.ix.cliff_amount else 0) : Nat) : ℚ) /
             (((d.ix.end_time -
                 (if 0 < d.ix.cliff then d.ix.cliff else d.ix.start_time) : Nat) : ℚ) /
               (d.ix.period : ℚ)))⌋₊ +
        (if 0 < d.ix.cliff_amount then d.ix.cliff_amount else 0) -
        d.withdrawn_amount ∧
      recA.available 150 = 500 ∧ recA.available 200 = 1000 := by
  refine ⟨?_, by rw [available_eq_div]; rfl, by rw [available_eq_div]; rfl⟩
  rw [TokenStreamData.available, if_neg (by omega), if_neg h3]
  rfl

/-- C1 witness: the formula theorem applied to Scenario A at now 150. -/
theorem c1_available_formula_witness : recA.available 150 = 500 :=
  (c1_available_formula recA 150 (by decide) (by decide) (by decide)).2.1

/-- C4: on a record that is transferable by the sender only, a transfer
signed by the sender, with all derived-address checks passing, is rejected
with InvalidAccountData because the handler also requires the authorized
wallet to equal the stored recipient. -/
theorem c4_sender_transfer_rejected :
    stT.meta.ix.transferable_by_sender = true ∧
    trT.authorized_wallet.key = stT.meta.sender ∧
    trT.authorized_wallet.is_signer = true ∧
    trT.authorized_wallet.key ≠ stT.meta.recipient ∧
    transfer_recipient pidX trT envStd stT = .error .invalidAccountData := by
  decide

/-- C5 counterexample: Scenario A has closable time 200, and a top-up at
now exactly 200 succeeds rather than failing with StreamClosed. -/
theorem c5_counterexample :
    stA.meta.closable? = some 200 ∧
      topup_stream pidX taA envStd 200 7 stA =
        .ok { meta := { recA with
                ix := { ixA with deposited_amount := 1007 },
                closable_at := 200 },
              escrowBalance := 1007, escrowOpen := true } := by
  decide

/-- C6 counterexample: on a partially funded record the code computes the
closable time with integer division (301), while the claim formula with
real-valued division yields 281. -/
theorem c6_counterexample :
    recC6.closable? = some 301 ∧ recC6.closableClaimReal = 281 ∧
      ((301 : ℚ) ≠ (281 : ℚ)) := by
  refine ⟨by decide, ?_, by norm_num⟩
  norm_num [TokenStreamData.closableClaimReal, TokenStreamData.effCliff,
    TokenStreamData.cliffAmt, recC6, ixA, TokenStreamData.new]

/-- C8 counterexample: on the partially funded record the available amount
at now 190 is 900, so a withdraw of 900 passes the availability check, but
the escrow holds only 500 and the transfer fails instead of updating the
record. -/
theorem c8_counterexample :
    stE.meta.available 190 = 900 ∧
      withdraw pidX waA envStd 190 900 stE = .error .insufficientFunds := by
  constructor
  · rw [available_eq_div]; rfl
  · simp only [withdraw, available_eq_div]; rfl

/-- C7 counterexample: a top-up whose supplied sender account 99 differs
from the stored sender 40 succeeds; the handler never compares the sender
accounts with the record. -/
theorem c7_counterexample :
    taC7.sender.key ≠ stA.meta.sender ∧
      topup_stream pidX taC7 envStd 150 5 stA =
        .ok { meta := { recA with
                ix := { ixA with deposited_amount := 1005 },
                closable_at := 200 },
              escrowBalance := 1005, escrowOpen := true } := by
  decide

/-- C10: a record accepted by the validation of create, with release rate 5
smaller than its period 10, makes closable divide by zero; create reaches
that abort. -/
theorem c10_closable_div_by_zero_reachable :
    create pidX iaA envStd 50 ixC10 = .error .divByZeroAbort ∧
      (TokenStreamData.new 50 40 41 20 recipTokKey 30 escrowKey ixC10).closable? =
        none := by
  decide

/-- C6 amended: closable returns the effective cliff when the deposit does
not cover the cliff amount, and otherwise the effective cliff plus
(deposited - cliff_amount) / amount_per_second + 1 with INTEGER division,
where amount_per_second is release_rate / period for a positive rate and
(total - cliff_amount) / (end - effective_cliff) otherwise, clamped to
end_time exactly when release_rate = 0 and the computed value exceeds it;
defined whenever the integer amount per second is nonzero. -/
theorem c6_closable_integer_division (d : TokenStreamData)
    (h1 : 0 < d.ix.release_rate → d.ix.release_rate / d.ix.period ≠ 0)
    (h2 : d.ix.release_rate = 0 →
      (d.ix.total_amount - d.cliffAmt) / (d.ix.end_time - d.effCliff) ≠ 0) :
    d.closable? =
      (if d.ix.deposited_amount < d.cliffAmt then some d.effCliff
       else
        let aps := if 0 < d.ix.release_rate then d.ix.release_rate / d.ix.period
          else (d.ix.total_amount - d.cliffAmt) / (d.ix.end_time - d.effCliff)
        let sl := (d.ix.deposited_amount - d.cliffAmt) / aps + 1
        if d.ix.end_time < d.effCliff + sl ∧ d.ix.release_rate = 0 then
          some d.ix.end_time
        else some (d.effCliff + sl)) := by
  rw [TokenStreamData.closable?]
  by_cases hdep : d.ix.deposited_amount < d.cliffAmt
  · rw [if_pos hdep, if_pos hdep]
  rw [if_neg hdep, if_neg hdep]
  have hA : ¬ (0 < d.ix.release_rate ∧ d.ix.period = 0) := by
    rintro ⟨hrr, hp⟩
    exact h1 hrr (by rw [hp, Nat.div_zero])
  have hB : ¬ (d.ix.release_rate = 0 ∧ d.ix.end_time - d.effCliff = 0) := by
    rintro ⟨hrr, hE⟩
    exact h2 hrr (by rw [hE, Nat.div_zero])
  rw [if_neg hA, if_neg hB]
  have hC : (if 0 < d.ix.release_rate then d.ix.release_rate / d.ix.period
      else (d.ix.total_amount - d.cliffAmt) / (d.ix.end_time - d.effCliff)) ≠ 0 := by
    by_cases hrr : 0 < d.ix.release_rate
    · rw [if_pos hrr]; exact h1 hrr
    · rw [if_neg hrr]; exact h2 (by omega)
  rw [if_neg hC]

/-- C6 witness: the amended closable formula applied to Scenario A. -/
theorem c6_closable_integer_division_witness : recA.closable? = some 200 := by
  rw [c6_closable_integer_division recA (by decide) (by decide)]
  decide

set_option maxHeartbeats 2000000 in
/-- C5 amended: with the account checks passing, top-up fails with
InvalidArgument when the amount is zero; it fails with StreamClosed when
the amount is nonzero and now is STRICTLY past the freshly computed
closable time; and whenever it succeeds the amount was nonzero, now was at
most the closable time, and the deposit increment, escrow funding and
closable_at recompute took place. -/
theorem c5_topup_boundary (pid now amount : Nat) (acc : TopUpAccounts)
    (env : TokenEnv) (st : SysState) (c : Nat)
    (hm1 : acc.metadata.dataEmpty = false)
    (hm2 : acc.escrow_tokens.owner = splTokenId)
    (hw : acc.sender.is_writable = true ∧ acc.sender_tokens.is_writable = true ∧
      acc.metadata.is_writable = true ∧ acc.escrow_tokens.is_writable = true)
    (ha1 : acc.token_program.key = splTokenId)
    (ha2 : acc.escrow_tokens.key = findProgramAddress acc.metadata.key pid)
    (hs : acc.sender.is_signer = true)
    (ht1 : acc.sender_tokens.owner = splTokenId)
    (ht2 : env.senderTokenDecodes = true)
    (hmint : env.senderTokenMint = acc.mint.key)
    (hmd : env.metaDecodes = true)
    (hc : st.meta.closable? = some c) :
    (amount = 0 → topup_stream pid acc env now amount st = .error .invalidArgument) ∧
    (amount ≠ 0 → acc.mint.key = st.meta.mint →
      acc.escrow_tokens.key = st.meta.escrow_tokens → c < now →
      topup_stream pid acc env now amount st = .error .streamClosed) ∧
    (∀ st2, topup_stream pid acc env now amount st = .ok st2 →
      amount ≠ 0 ∧ now ≤ c ∧
      st2.meta.ix.deposited_amount = wadd st.meta.ix.deposited_amount amount ∧
      TokenStreamData.closable?
        { st.meta with ix :=
            { st.meta.ix with deposited_amount := wadd st.meta.ix.deposited_amount amount } } =
        some st2.meta.closable_at ∧
      st2.escrowBalance = st.escrowBalance + amount) := by
  refine ⟨?_, ?_, ?_⟩
  · intro h0
    rw [topup_stream, if_neg (by simp [hm1, hm2]),
      if_neg (by simp [hw.1, hw.2.1, hw.2.2.1, hw.2.2.2]),
      if_neg (by simp [ha1, ha2]), if_neg (by simp [hs]),
      if_neg (by simp [ht1, ht2]), if_neg (by simp [hmint]), if_pos h0]
  · intro hA hmm1 hmm2 hcn
    simp only [topup_stream]
    rw [if_neg (by simp [hm1, hm2]),
      if_neg (by simp [hw.1, hw.2.1, hw.2.2.1, hw.2.2.2]),
      if_neg (by simp [ha1, ha2]), if_neg (by simp [hs]),
      if_neg (by simp [ht1, ht2]), if_neg (by simp [hmint]), if_neg hA,
      if_neg (by simp [hmd]), if_neg (by simp [hmm1, hmm2])]
    simp only [hc, orAbort_some]
    rw [if_pos hcn]
  · intro st2 hok
    simp only [topup_stream] at hok
    rw [if_neg (by simp [hm1, hm2]),
      if_neg (by simp [hw.1, hw.2.1, hw.2.2.1, hw.2.2.2]),
      if_neg (by simp [ha1, ha2]), if_neg (by simp [hs]),
      if_neg (by simp [ht1, ht2]), if_neg (by simp [hmint])] at hok
    by_cases h0 : amount = 0
    · rw [if_pos h0] at hok
      exact Except.noConfusion hok
    rw [if_neg h0, if_neg (by simp [hmd])] at hok
    by_cases hmm : acc.mint.key ≠ st.meta.mint ∨
        acc.escrow_tokens.key ≠ st.meta.escrow_tokens
    · rw [if_pos hmm] at hok
      exact Except.noConfusion hok
    rw [if_neg hmm, hc, orAbort_some] at hok
    by_cases hlt : c < now
    · rw [if_pos hlt] at hok
      exact Except.noConfusion hok
    rw [if_neg hlt] at hok
    by_cases hf1 : env.senderTokenAmount < amount
    · rw [if_pos hf1] at hok
      exact Except.noConfusion hok
    rw [if_neg hf1] at hok
    by_cases hf2 : U64 ≤ st.escrowBalance + amount
    · rw [if_pos hf2] at hok
      exact Except.noConfusion hok
    rw [if_neg hf2] at hok
    obtain ⟨c2, hq2, hok⟩ := orAbort_ok hok
    by_cases hmd2 : env.mintDecodes = true
    · rw [if_neg (by simp [hmd2])] at hok
      have hst2 := Except.ok.inj hok
      subst hst2
      refine ⟨h0, by omega, rfl, ?_, rfl⟩
      exact hq2
    · rw [if_pos (by simp [hmd2])] at hok
      exact Except.noConfusion hok

/-- C5 witness: the amended top-up theorem applied to Scenario A at now 150
with amount 0. -/
theorem c5_topup_boundary_witness :
    topup_stream pidX taA envStd 150 0 stA = .error .invalidArgument :=
  (c5_topup_boundary pidX 150 0 taA envStd stA 200 (by decide) (by decide)
    (by decide) (by decide) (by decide) (by decide) (by decide) (by decide)
    (by decide) (by decide) (by decide)).1 rfl

/-- C3: once the existence, writability and address checks of cancel pass,
an early cancellation (now before the stored closable_at) proceeds only
with the sender as signing authority, an unsigned sender authority fails
with MissingRequiredSignature, and at or past closable_at the outcome does
not depend on the supplied authority account at all. -/
theorem c3_cancel_authorization (pid now : Nat) (acc : CancelAccounts)
    (env : TokenEnv) (st : SysState)
    (hm1 : acc.escrow_tokens.dataEmpty = false)
    (hm2 : acc.escrow_tokens.owner = splTokenId)
    (hm3 : acc.metadata.dataEmpty = false)
    (hm4 : acc.metadata.owner = pid)
    (hw : acc.sender.is_writable = true ∧ acc.sender_tokens.is_writable = true ∧
      acc.recipient.is_writable = true ∧ acc.recipient_tokens.is_writable = true ∧
      acc.metadata.is_writable = true ∧ acc.escrow_tokens.is_writable = true)
    (ha1 : acc.token_program.key = splTokenId)
    (ha2 : acc.escrow_tokens.key = findProgramAddress acc.metadata.key pid)
    (ha3 : acc.recipient_tokens.key =
      associatedTokenAddress acc.recipient.key acc.mint.key)
    (hd1 : env.metaDecodes = true)
    (hd2 : env.mintDecodes = true) :
    (now < st.meta.closable_at →
      (acc.cancel_authority.key = acc.sender.key →
        acc.cancel_authority.is_signer = false →
        cancel pid acc env now st = .error .missingRequiredSignature) ∧
      (∀ st2, cancel pid acc env now st = .ok st2 →
        acc.cancel_authority.key = acc.sender.key ∧
        acc.cancel_authority.is_signer = true)) ∧
    (st.meta.closable_at ≤ now → ∀ a : AccountInfo,
      cancel pid { acc with cancel_authority := a } env now st =
        cancel pid acc env now st) := by
  have g1 : ¬ (acc.escrow_tokens.dataEmpty = true ∨
      acc.escrow_tokens.owner ≠ splTokenId ∨ acc.metadata.dataEmpty = true ∨
      acc.metadata.owner ≠ pid) := by simp [hm1, hm2, hm3, hm4]
  have g2 : ¬ ¬ (acc.sender.is_writable = true ∧
      acc.sender_tokens.is_writable = true ∧ acc.recipient.is_writable = true ∧
      acc.recipient_tokens.is_writable = true ∧ acc.metadata.is_writable = true ∧
      acc.escrow_tokens.is_writable = true) := by
    simp [hw.1, hw.2.1, hw.2.2.1, hw.2.2.2.1, hw.2.2.2.2.1, hw.2.2.2.2.2]
  have g3 : ¬ (acc.token_program.key ≠ splTokenId ∨
      acc.escrow_tokens.key ≠ findProgramAddress acc.metadata.key pid ∨
      acc.recipient_tokens.key ≠
        associatedTokenAddress acc.recipient.key acc.mint.key) := by
    simp [ha1, ha2, ha3]
  have g4 : ¬ ¬ env.metaDecodes = true := by simp [hd1]
  have g5 : ¬ ¬ env.mintDecodes = true := by simp [hd2]
  constructor
  · intro hearly
    constructor
    · intro hk hsig
      simp only [cancel]
      rw [if_neg g1, if_neg g2, if_neg g3, if_neg g4, if_neg g5,
        if_neg (by simp [hk]), if_pos ⟨hearly, by simp [hsig]⟩]
    · intro st2 hok
      simp only [cancel] at hok
      rw [if_neg g1, if_neg g2, if_neg g3, if_neg g4, if_neg g5] at hok
      by_cases hk : acc.cancel_authority.key = acc.sender.key
      · by_cases hsig : acc.cancel_authority.is_signer = true
        · exact ⟨hk, hsig⟩
        · rw [if_neg (by simp [hk]), if_pos ⟨hearly, hsig⟩] at hok
          exact Except.noConfusion hok
      · rw [if_pos ⟨hearly, hk⟩] at hok
        exact Except.noConfusion hok
  · intro hlate a
    have hnot : ¬ now < st.meta.closable_at := not_lt.mpr hlate
    simp only [cancel]
    rw [if_neg g1, if_neg g2, if_neg g3, if_neg g4, if_neg g5,
      if_neg (show ¬ (now < st.meta.closable_at ∧ a.key ≠ acc.sender.key) by
        simp [hnot]),
      if_neg (show ¬ (now < st.meta.closable_at ∧ ¬ a.is_signer = true) by
        simp [hnot]),
      if_neg (show ¬ (now < st.meta.closable_at ∧
          acc.cancel_authority.key ≠ acc.sender.key) by simp [hnot]),
      if_neg (show ¬ (now < st.meta.closable_at ∧
          ¬ acc.cancel_authority.is_signer = true) by simp [hnot]),
      if_neg g1, if_neg g2, if_neg g3, if_neg g4, if_neg g5]

/-- C3 witness: the cancel authorization theorem applied to Scenario A at
now 150 with the sender as authority but without its signature. -/
theorem c3_cancel_authorization_witness :
    cancel pidX { caA with cancel_authority := aInfo 40 } envStd 150 stA =
      .error .missingRequiredSignature :=
  ((c3_cancel_authorization pidX 150 { caA with cancel_authority := aInfo 40 }
    envStd stA (by decide) (by decide) (by decide) (by decide) (by decide)
    (by decide) (by decide) (by decide) (by decide) (by decide)).1
    (by decide)).1 (by decide) (by decide)

set_option maxHeartbeats 2000000 in
/-- C8 amended: with the account, signer and record-matching checks passing
and the escrow balance covering the requested amount, withdraw fails with
InvalidArgument (and changes nothing) when the amount exceeds the available
amount, and otherwise pays out requested = available for amount 0 and
requested = amount otherwise, adds requested to withdrawn_amount, stamps
last_withdrawn_at, and closes the escrow exactly when the stream is then
fully withdrawn; on Scenario A a zero-amount withdraw at now 150 leaves
withdrawn_amount 500. -/
theorem c8_withdraw_behavior (pid now amount : Nat) (acc : WithdrawAccounts)
    (env : TokenEnv) (st : SysState)
    (hm1 : acc.escrow_tokens.dataEmpty = false)
    (hm2 : acc.escrow_tokens.owner = splTokenId)
    (hm3 : acc.metadata.dataEmpty = false)
    (hm4 : acc.metadata.owner = pid)
    (hw : acc.recipient.is_writable = true ∧
      acc.recipient_tokens.is_writable = true ∧
      acc.metadata.is_writable = true ∧ acc.escrow_tokens.is_writable = true)
    (ha1 : acc.token_program.key = splTokenId)
    (ha2 : acc.escrow_tokens.key = findProgramAddress acc.metadata.key pid)
    (ha3 : acc.recipient_tokens.key =
      associatedTokenAddress acc.recipient.key acc.mint.key)
    (ha4 : acc.withdraw_authority.key = acc.recipient.key)
    (hs : acc.withdraw_authority.is_signer = true)
    (hd1 : env.metaDecodes = true)
    (hd2 : env.mintDecodes = true)
    (hr1 : acc.recipient.key = st.meta.recipient)
    (hr2 : acc.recipient_tokens.key = st.meta.recipient_tokens)
    (hr3 : acc.mint.key = st.meta.mint)
    (hr4 : acc.escrow_tokens.key = st.meta.escrow_tokens)
    (hs1 : acc.sender.is_writable = true)
    (hs2 : acc.sender.key = st.meta.sender)
    (hreq : (if amount = 0 then st.meta.available now else amount) ≤
      st.escrowBalance) :
    (st.meta.available now < amount →
      withdraw pid acc env now amount st = .error .invalidArgument) ∧
    (amount ≤ st.meta.available now →
      withdraw pid acc env now amount st =
        (if wadd st.meta.withdrawn_amount
            (if amount = 0 then st.meta.available now else amount) =
            st.meta.ix.deposited_amount then
          .ok { meta := { st.meta with
                  withdrawn_amount := wadd st.meta.withdrawn_amount
                    (if amount = 0 then st.meta.available now else amount),
                  last_withdrawn_at := now },
                escrowBalance := 0, escrowOpen := false }
        else
          .ok { meta := { st.meta with
                  withdrawn_amount := wadd st.meta.withdrawn_amount
                    (if amount = 0 then st.meta.available now else amount),
                  last_withdrawn_at := now },
                escrowBalance := st.escrowBalance -
                  (if amount = 0 then st.meta.available now else amount),
                escrowOpen := true })) ∧
    withdraw pidX waA envStd 150 0 stA =
      .ok { meta := { recA with withdrawn_amount := 500, last_withdrawn_at := 150 },
            escrowBalance := 500, escrowOpen := true } := by
  have g1 : ¬ (acc.escrow_tokens.dataEmpty = true ∨
      acc.escrow_tokens.owner ≠ splTokenId ∨ acc.metadata.dataEmpty = true ∨
      acc.metadata.owner ≠ pid) := by simp [hm1, hm2, hm3, hm4]
  have g2 : ¬ ¬ (acc.recipient.is_writable = true ∧
      acc.recipient_tokens.is_writable = true ∧
      acc.metadata.is_writable = true ∧ acc.escrow_tokens.is_writable = true) := by
    simp [hw.1, hw.2.1, hw.2.2.1, hw.2.2.2]
  have g3 : ¬ (acc.token_program.key ≠ splTokenId ∨
      acc.escrow_tokens.key ≠ findProgramAddress acc.metadata.key pid ∨
      acc.recipient_tokens.key ≠
        associatedTokenAddress acc.recipient.key acc.mint.key ∨
      acc.withdraw_authority.key ≠ acc.recipient.key) := by
    simp [ha1, ha2, ha3, ha4]
  have g4 : ¬ ¬ acc.withdraw_authority.is_signer = true := by simp [hs]
  have g5 : ¬ ¬ env.metaDecodes = true := by simp [hd1]
  have g6 : ¬ ¬ env.mintDecodes = true := by simp [hd2]
  have g7 : ¬ (acc.recipient.key ≠ st.meta.recipient ∨
      acc.recipient_tokens.key ≠ st.meta.recipient_tokens ∨
      acc.mint.key ≠ st.meta.mint ∨
      acc.escrow_tokens.key ≠ st.meta.escrow_tokens) := by
    simp [hr1, hr2, hr3, hr4]
  refine ⟨?_, ?_, by simp only [withdraw, available_eq_div]; rfl⟩
  · intro hgt
    simp only [withdraw]
    rw [if_neg g1, if_neg g2, if_neg g3, if_neg g4, if_neg g5, if_neg g6,
      if_neg g7, if_pos hgt]
  · intro hle
    simp only [withdraw]
    rw [if_neg g1, if_neg g2, if_neg g3, if_neg g4, if_neg g5, if_neg g6,
      if_neg g7, if_neg (not_lt.mpr hle), if_neg (not_lt.mpr hreq)]
    by_cases hfull : wadd st.meta.withdrawn_amount
        (if amount = 0 then st.meta.available now else amount) =
        st.meta.ix.deposited_amount
    · rw [if_pos hfull, if_neg (by simp [hs1, hs2]), if_pos hfull]
    · rw [if_neg hfull, if_neg hfull]

/-- C8 witness: the amended withdraw theorem applied to the Scenario C
withdraw of amount 0 at now 150. -/
theorem c8_withdraw_behavior_witness :
    withdraw pidX waA envStd 150 0 stA =
      .ok { meta := { recA with withdrawn_amount := 500, last_withdrawn_at := 150 },
            escrowBalance := 500, escrowOpen := true } :=
  (c8_withdraw_behavior pidX 150 0 waA envStd stA (by decide) (by decide)
    (by decide) (by decide) (by decide) (by decide) (by decide) (by decide)
    (by decide) (by decide) (by decide) (by decide) (by decide) (by decide)
    (by decide) (by decide) (by decide) (by decide)
    (by rw [available_eq_div]; decide)).2.2

/-- C7 amended: the caller-supplied accounts corresponding to identities
stored in the record are checked against the record, with any mismatch
failing with InvalidAccountData, by withdraw (recipient, recipient tokens,
mint, escrow), by cancel (all six identities) and by transferRecipient
(mint, authorized wallet against the stored recipient, escrow) — but
topUp checks only the mint and escrow accounts, and its supplied sender
and sender-token accounts are never compared with the record, so only a
mint or escrow mismatch fails there. -/
theorem c7_account_matching :
    (∀ (pid now amount : Nat) (acc : WithdrawAccounts) (env : TokenEnv)
      (st : SysState),
      acc.escrow_tokens.dataEmpty = false →
      acc.escrow_tokens.owner = splTokenId →
      acc.metadata.dataEmpty = false →
      acc.metadata.owner = pid →
      (acc.recipient.is_writable = true ∧
        acc.recipient_tokens.is_writable = true ∧
        acc.metadata.is_writable = true ∧ acc.escrow_tokens.is_writable = true) →
      acc.token_program.key = splTokenId →
      acc.escrow_tokens.key = findProgramAddress acc.metadata.key pid →
      acc.recipient_tokens.key =
        associatedTokenAddress acc.recipient.key acc.mint.key →
      acc.withdraw_authority.key = acc.recipient.key →
      acc.withdraw_authority.is_signer = true →
      env.metaDecodes = true → env.mintDecodes = true →
      (acc.recipient.key ≠ st.meta.recipient ∨
        acc.recipient_tokens.key ≠ st.meta.recipient_tokens ∨
        acc.mint.key ≠ st.meta.mint ∨
        acc.escrow_tokens.key ≠ st.meta.escrow_tokens) →
      withdraw pid acc env now amount st = .error .invalidAccountData) ∧
    (∀ (pid now : Nat) (acc : CancelAccounts) (env : TokenEnv) (st : SysState),
      acc.escrow_tokens.dataEmpty = false →
      acc.escrow_tokens.owner = splTokenId →
      acc.metadata.dataEmpty = false →
      acc.metadata.owner = pid →
      (acc.sender.is_writable = true ∧ acc.sender_tokens.is_writable = true ∧
        acc.recipient.is_writable = true ∧
        acc.recipient_tokens.is_writable = true ∧
        acc.metadata.is_writable = true ∧ acc.escrow_tokens.is_writable = true) →
      acc.token_program.key = splTokenId →
      acc.escrow_tokens.key = findProgramAddress acc.metadata.key pid →
      acc.recipient_tokens.key =
        associatedTokenAddress acc.recipient.key acc.mint.key →
      env.metaDecodes = true → env.mintDecodes = true →
      st.meta.closable_at ≤ now →
      (acc.sender.key ≠ st.meta.sender ∨
        acc.sender_tokens.key ≠ st.meta.sender_tokens ∨
        acc.recipient.key ≠ st.meta.recipient ∨
        acc.recipient_tokens.key ≠ st.meta.recipient_tokens ∨
        acc.mint.key ≠ st.meta.mint ∨
        acc.escrow_tokens.key ≠ st.meta.escrow_tokens) →
      cancel pid acc env now st = .error .invalidAccountData) ∧
    (∀ (pid : Nat) (acc : TransferAccounts) (env : TokenEnv) (st : SysState),
      acc.metadata.dataEmpty = false →
      acc.metadata.owner = pid →
      acc.escrow_tokens.dataEmpty = false →
      acc.escrow_tokens.owner = splTokenId →
      acc.authorized_wallet.is_signer = true →
      (acc.metadata.is_writable = true ∧
        acc.authorized_wallet.is_writable = true ∧
        acc.new_recipient_tokens.is_writable = true) →
      env.metaDecodes = true →
      st.meta.ix.transferable_by_sender = true →
      st.meta.sender = acc.authorized_wallet.key →
      (acc.mint.key ≠ st.meta.mint ∨
        acc.authorized_wallet.key ≠ st.meta.recipient ∨
        acc.escrow_tokens.key ≠ st.meta.escrow_tokens) →
      transfer_recipient pid acc env st = .error .invalidAccountData) ∧
    (∀ (pid now amount : Nat) (acc : TopUpAccounts) (env : TokenEnv)
      (st : SysState),
      acc.metadata.dataEmpty = false →
      acc.escrow_tokens.owner = splTokenId →
      (acc.sender.is_writable = true ∧ acc.sender_tokens.is_writable = true ∧
        acc.metadata.is_writable = true ∧ acc.escrow_tokens.is_writable = true) →
      acc.token_program.key = splTokenId →
      acc.escrow_tokens.key = findProgramAddress acc.metadata.key pid →
      acc.sender.is_signer = true →
      acc.sender_tokens.owner = splTokenId →
      env.senderTokenDecodes = true →
      env.senderTokenMint = acc.mint.key →
      amount ≠ 0 →
      env.metaDecodes = true →
      (acc.mint.key ≠ st.meta.mint ∨
        acc.escrow_tokens.key ≠ st.meta.escrow_tokens) →
      topup_stream pid acc env now amount st = .error .invalidAccountData) := by
  refine ⟨?_, ?_, ?_, ?_⟩
  · intro pid now amount acc env st hm1 hm2 hm3 hm4 hw ha1 ha2 ha3 ha4 hs
      hd1 hd2 hmm
    simp only [withdraw]
    rw [if_neg (by simp [hm1, hm2, hm3, hm4]),
      if_neg (by simp [hw.1, hw.2.1, hw.2.2.1, hw.2.2.2]),
      if_neg (by simp [ha1, ha2, ha3, ha4]), if_neg (by simp [hs]),
      if_neg (by simp [hd1]), if_neg (by simp [hd2]), if_pos hmm]
  · intro pid now acc env st hm1 hm2 hm3 hm4 hw ha1 ha2 ha3 hd1 hd2 hlate hmm
    have hnot : ¬ now < st.meta.closable_at := not_lt.mpr hlate
    simp only [cancel]
    rw [if_neg (by simp [hm1, hm2, hm3, hm4]),
      if_neg (by simp [hw.1, hw.2.1, hw.2.2.1, hw.2.2.2.1, hw.2.2.2.2.1,
        hw.2.2.2.2.2]),
      if_neg (by simp [ha1, ha2, ha3]), if_neg (by simp [hd1]),
      if_neg (by simp [hd2]), if_neg (by simp [hnot]),
      if_neg (by simp [hnot]), if_pos hmm]
  · intro pid acc env st hm1 hm2 hm3 hm4 hsig hw hd1 hts hsk hmm
    simp only [transfer_recipient]
    rw [if_neg (by simp [hm1, hm2, hm3, hm4]), if_neg (by simp [hsig]),
      if_neg (by simp [hw.1, hw.2.1, hw.2.2]), if_neg (by simp [hd1]),
      if_neg (by simp [hts]),
      if_neg (show ¬ ¬ ((st.meta.ix.transferable_by_recipient = true ∧
          st.meta.recipient = acc.authorized_wallet.key) ∨
          (st.meta.ix.transferable_by_sender = true ∧
          st.meta.sender = acc.authorized_wallet.key)) by
        simp [hts, hsk]),
      if_pos (by tauto)]
  · intro pid now amount acc env st hm1 hm2 hw ha1 ha2 hs ht1 ht2 hmint h0
      hd1 hmm
    simp only [topup_stream]
    rw [if_neg (by simp [hm1, hm2]),
      if_neg (by simp [hw.1, hw.2.1, hw.2.2.1, hw.2.2.2]),
      if_neg (by simp [ha1, ha2]), if_neg (by simp [hs]),
      if_neg (by simp [ht1, ht2]), if_neg (by simp [hmint]), if_neg h0,
      if_neg (by simp [hd1]), if_pos hmm]

/-- C7 witness: the account-matching theorem applied to a top-up whose mint
account 31 differs from the stored mint 30. -/
theorem c7_account_matching_witness :
    topup_stream pidX { taA with mint := aInfo 31 }
      { envStd with senderTokenMint := 31 } 150 5 stA =
      .error .invalidAccountData :=
  c7_account_matching.2.2.2 pidX 150 5 { taA with mint := aInfo 31 }
    { envStd with senderTokenMint := 31 } stA (by decide) (by decide)
    (by decide) (by decide) (by decide) (by decide) (by decide) (by decide)
    (by decide) (by decide) (by decide) (by decide)

/-- Terms with a deposit and total of 2^63: start 10, end 1034, period 1,
no cliff, no release rate. -/
def ixB : StreamInstruction :=
  { ixA with start_time := 10, end_time := 1034, deposited_amount := 2 ^ 63,
             total_amount := 2 ^ 63, period := 1 }

/-- Environment whose sender token account holds 2^63 tokens of mint 30. -/
def envB : TokenEnv := { envStd with senderTokenAmount := 2 ^ 63 }

/-- Create the 2^63 stream at time 0, withdraw 2^53 at time 11, then top up
by 2^63 at time 11: every step succeeds. -/
def c2chain : Except Err SysState :=
  (create pidX iaA envB 0 ixB).bind fun s0 =>
    (withdraw pidX waA envB 11 (2 ^ 53) s0).bind fun s1 =>
      topup_stream pidX taA envB 11 (2 ^ 63) s1

/-- Final state of the chain: the u64 deposit add wrapped to 0 while 2^53
has been withdrawn. -/
def c2final : SysState :=
  { meta :=
      { magic := 2, created_at := 0, withdrawn_amount := 2 ^ 53,
        canceled_at := 0, closable_at := 11, last_withdrawn_at := 11,
        sender := 40, sender_tokens := 41, recipient := 20,
        recipient_tokens := recipTokKey, mint := 30, escrow_tokens := escrowKey,
        ix := { ixB with deposited_amount := 0 } },
    escrowBalance := 2 ^ 64 - 2 ^ 53, escrowOpen := true }

/-- C2: a create followed by a successful withdraw and a successful top-up
whose u64 deposit increment wraps leaves withdrawn_amount larger than
deposited_amount, violating the invariant. -/
theorem c2_invariant_broken_by_overflow :
    c2chain = Except.ok c2final ∧
      c2final.meta.ix.deposited_amount < c2final.meta.withdrawn_amount := by
  constructor
  · simp only [c2chain, withdraw, available_eq_div]
    rfl
  · decide

/-- Scenario A record with a cliff amount of 200 at no cliff time. -/
def recD : TokenStreamData :=
  TokenStreamData.new 0 40 41 20 recipTokKey 30 escrowKey
    { ixA with cliff_amount := 200 }

/-- Scenario A record with 900 of its 1000 deposit already withdrawn. -/
def recW : TokenStreamData := { recA with withdrawn_amount := 900 }

/-- C9 counterexample: recD is a valid record whose available amount at its
start time is 200, not 0; the valid partially funded recE has available 900
at now 199 but only 500 at its end time 200; and on the valid record recW
(Scenario A terms with 900 withdrawn) the trailing u64 subtraction of the
program underflows, so available wraps to 2^64 - 800 at now 110 and then
drops to 100 at the end time 200 — available is not non-decreasing up to
end_time. -/
theorem c9_counterexample :
    ValidRecord recD ∧ recD.available recD.ix.start_time = 200 ∧
      ValidRecord recE ∧ (199 : Nat) ≤ 200 ∧ 200 ≤ recE.ix.end_time ∧
      recE.available 199 = 900 ∧ recE.available 200 = 500 ∧
      ValidRecord recW ∧ (110 : Nat) ≤ 200 ∧ 200 ≤ recW.ix.end_time ∧
      recW.availableW 110 = 2 ^ 64 - 800 ∧ recW.availableW 200 = 100 ∧
      recW.availableW 200 < recW.availableW 110 := by
  refine ⟨by decide, by rw [available_eq_div]; rfl, by decide, by decide,
    by decide, by rw [available_eq_div]; rfl, by rw [available_eq_div]; rfl,
    by decide, by decide, by decide, ?_, ?_, ?_⟩
  · simp only [TokenStreamData.availableW, schedTerm_eq_div]
    rfl
  · simp only [TokenStreamData.availableW, schedTerm_eq_div]
    rfl
  · simp only [TokenStreamData.availableW, schedTerm_eq_div]
    decide

/-- C9 amended: under the release-mode wrapping u64 semantics of available,
for a valid record with u64-sized fields, available is non-decreasing for
n1 ≤ n2 ≤ end_time provided the trailing u64 subtraction does not
underflow at n1 (once n1 is past start and cliff, withdrawn_amount is at
most the cliff amount plus the schedule term), the schedule value at n2
stays below 2^64, and, when n2 reaches end_time with release_rate 0, the
record is fully funded with its cliff amount not exceeding the total; and
available at start_time is 0 when the cliff lies strictly after the start,
and the wrapped u64 difference cliff_amount minus withdrawn_amount
otherwise. -/
theorem c9_available_monotone (d : TokenStreamData) (hv : ValidRecord d)
    (hdep : d.ix.deposited_amount < U64)
    (hca64 : d.ix.cliff_amount < U64) :
    (∀ n1 n2, n1 ≤ n2 → n2 ≤ d.ix.end_time →
      (d.ix.end_time ≤ n2 → d.ix.release_rate = 0 →
        d.cliffAmt ≤ d.ix.total_amount ∧
        d.ix.total_amount ≤ d.ix.deposited_amount) →
      (d.ix.start_time ≤ n1 → d.ix.cliff ≤ n1 →
        d.withdrawn_amount ≤ d.cliffAmt + d.schedTerm n1) →
      d.cliffAmt + d.schedTerm n2 < U64 →
      d.availableW n1 ≤ d.availableW n2) ∧
    d.availableW d.ix.start_time =
      (if d.ix.start_time < d.ix.cliff then 0
       else wsub d.cliffAmt d.withdrawn_amount) := by
  obtain ⟨hwd, hse, hp, hcl⟩ := hv
  constructor
  · intro n1 n2 h12 h2e hside hunder hover
    rw [TokenStreamData.availableW, TokenStreamData.availableW]
    by_cases hz1 : n1 < d.ix.start_time ∨ n1 < d.ix.cliff
    · rw [if_pos hz1]
      exact Nat.zero_le _
    rw [if_neg hz1]
    have hz2 : ¬ (n2 < d.ix.start_time ∨ n2 < d.ix.cliff) := by omega
    rw [if_neg hz2]
    have hu1 : d.withdrawn_amount ≤ d.cliffAmt + d.schedTerm n1 :=
      hunder (by omega) (by omega)
    have hsm : d.schedTerm n1 ≤ d.schedTerm n2 := schedTerm_mono d h12
    have hover1 : d.cliffAmt + d.schedTerm n1 < U64 := by omega
    have heffle1 : d.effCliff ≤ n1 := by
      rw [TokenStreamData.effCliff]
      split <;> omega
    have hval : ∀ n, d.withdrawn_amount ≤ d.cliffAmt + d.schedTerm n →
        d.cliffAmt + d.schedTerm n < U64 →
        wsub (wadd (min (d.schedTerm n) (U64 - 1)) d.cliffAmt)
          d.withdrawn_amount =
          d.schedTerm n + d.cliffAmt - d.withdrawn_amount := by
      intro n hu ho
      rw [min_eq_left (by omega), wadd_eq_of_lt (by omega),
        wsub_eq_of_le (by omega) (by omega)]
    by_cases hb2 : d.ix.end_time ≤ n2 ∧ d.ix.release_rate = 0
    · rw [if_pos hb2, wsub_eq_of_le hwd hdep]
      by_cases hb1 : d.ix.end_time ≤ n1 ∧ d.ix.release_rate = 0
      · rw [if_pos hb1]
      · rw [if_neg hb1, hval n1 hu1 hover1]
        obtain ⟨hca, htd⟩ := hside hb2.1 hb2.2
        have hn1e : n1 < d.ix.end_time := by
          by_contra hnc
          exact hb1 ⟨by omega, hb2.2⟩
        have hbound : d.schedTerm n1 ≤ d.ix.total_amount - d.cliffAmt := by
          rw [schedTerm_eq_div,
            if_neg (show ¬ 0 < d.ix.release_rate by omega)]
          exact schedDiv_le d n1 heffle1 hn1e
        omega
    · rw [if_neg hb2]
      by_cases hb1 : d.ix.end_time ≤ n1 ∧ d.ix.release_rate = 0
      · exfalso
        omega
      · rw [if_neg hb1, hval n1 hu1 hover1, hval n2 (by omega) hover]
        omega
  · rw [TokenStreamData.availableW]
    by_cases hcs : d.ix.start_time < d.ix.cliff
    · rw [if_pos (Or.inr hcs), if_pos hcs]
    · have heff : d.effCliff = d.ix.start_time := by
        rw [TokenStreamData.effCliff]
        by_cases hc0 : d.ix.cliff > 0
        · rw [if_pos hc0]
          have := hcl (by omega)
          omega
        · rw [if_neg hc0]
      have hca : d.cliffAmt < U64 := by
        rw [TokenStreamData.cliffAmt]
        split <;> omega
      have hs0 : d.schedTerm d.ix.start_time = 0 := by
        rw [schedTerm_eq_div, heff, Nat.sub_self, Nat.zero_div]
        simp
      rw [if_neg (by omega),
        if_neg (show ¬ (d.ix.end_time ≤ d.ix.start_time ∧
          d.ix.release_rate = 0) by omega),
        if_neg hcs, hs0, Nat.zero_min, wadd_eq_of_lt (by omega),
        Nat.zero_add]

/-- C9 witness: wrap-aware monotonicity of available on Scenario A between
150 and 160, where nothing is withdrawn and no underflow can occur. -/
theorem c9_available_monotone_witness :
    recA.availableW 150 ≤ recA.availableW 160 :=
  (c9_available_monotone recA (by decide) (by decide) (by decide)).1 150 160
    (by decide) (by decide) (fun h => absurd h (by decide))
    (fun _ _ => Nat.zero_le _)
    (by rw [schedTerm_eq_div]; decide)

end Vesting
